import Mathlib

/-!
Verification development for the crt571 serial card-reader driver.

The Go sources are shallowly embedded over `List Nat`, where every element
stands for one byte (all constructors below only ever produce values < 256;
xor of two bytes is again a byte). Machine integers are modelled as `Nat`
with explicit `% 65536` where the Go code casts to `uint16`. Go slice
expressions `buf[lo:hi]`, which panic when `lo > hi` or `hi` exceeds the
slice length, are modelled by `goSlice`, returning `none` exactly when the
Go program would panic.
-/

namespace Crt571

/-- Embeds `bccCalc` (the checksum computation): a running xor over the
input bytes in order, starting from 0, exactly as the Go loop
`for i := 0; i < n; i++ { bcc = bcc ^ a[i] }`. -/
def bccCalc (a : List Nat) : Nat := a.foldl Nat.xor 0

/-- Embeds `bccCheck bcc data`: recomputes the checksum of `data` and
compares with the candidate byte `bcc`. -/
def bccCheck (bcc : Nat) (data : List Nat) : Bool := bcc == bccCalc data

/-- Embeds `binary.BigEndian.PutUint16` applied to `uint16(v)`: the cast
truncates modulo 2^16, then the high byte precedes the low byte. -/
def putUint16BE (v : Nat) : List Nat := [v % 65536 / 256, v % 256]

/-- The bytes written by `request` before the checksum byte, in write
order: STX, ADDR, the two big-endian length bytes for `len(data)+3`,
CMT, CM, PM, DATA, ETX (part_000 lines 438-445, identical in part_001). -/
def requestBody (addr cm pm : Nat) (data : List Nat) : List Nat :=
  0xF2 :: addr :: putUint16BE (data.length + 3) ++ [0x43, cm, pm] ++ data ++ [0x03]

/-- The full encoded request frame: the body followed by `bccCalc` of the
body (part_000 lines 447-449). -/
def encodeRequest (addr cm pm : Nat) (data : List Nat) : List Nat :=
  requestBody addr cm pm data ++ [bccCalc (requestBody addr cm pm data)]

/-- The encoding part of `request`: build the frame, then reject it when
its total size exceeds `CRT571_BUFFER_MAX_LENGTH = 1024` (part_000 lines
453-455). The error string is the one the Go code passes to
`errors.New`. -/
def makeRequest (addr cm pm : Nat) (data : List Nat) : Except String (List Nat) :=
  let b := encodeRequest addr cm pm data
  if 1024 < b.length then Except.error "[ERROR] Exceed max packet size for CRT-571"
  else Except.ok b

/-- Go slice expression `l[lo:hi]` on a slice whose length equals its
capacity: yields the sub-list when `lo ≤ hi ≤ len l`, and `none` (a
runtime panic in Go) otherwise. -/
def goSlice (l : List Nat) (lo hi : Nat) : Option (List Nat) :=
  if lo ≤ hi ∧ hi ≤ l.length then some ((l.drop lo).take (hi - lo)) else none

/-- Embeds the `CRT571CardStatus["ST0"]` map lookup; a missing key gives
the Go zero value, the empty string. -/
def st0Msg (b : Nat) : String :=
  if b = 0x30 then "No Card in CRT-571"
  else if b = 0x31 then "One Card in gate"
  else if b = 0x32 then "One Card on RF/IC Card Position"
  else ""

/-- Embeds the `CRT571CardStatus["ST1"]` map lookup. -/
def st1Msg (b : Nat) : String :=
  if b = 0x30 then "No Card in stacker"
  else if b = 0x31 then "Few Card in stacker"
  else if b = 0x32 then "Enough Cards in card box"
  else ""

/-- Embeds the `CRT571CardStatus["ST2"]` map lookup. -/
def st2Msg (b : Nat) : String :=
  if b = 0x30 then "Error card bin not full"
  else if b = 0x31 then "Error card bin full"
  else ""

/-- The `CRT571Errors` table, keyed by the two ASCII bytes of the error
code exactly as the Go map is keyed by the two-character string. -/
def crt571Errors : List (List Nat × String) :=
  [([0x30, 0x30], "Reception of Undefined Command"),
   ([0x30, 0x31], "Command Parameter Error"),
   ([0x30, 0x32], "Command Sequence Error"),
   ([0x30, 0x33], "Out of Hardware Support Command"),
   ([0x30, 0x34], "Command Data Error"),
   ([0x30, 0x35], "IC Card Contact Not Release"),
   ([0x31, 0x30], "Card Jam"),
   ([0x31, 0x32], "sensor error"),
   ([0x31, 0x33], "Too Long-Card"),
   ([0x31, 0x34], "Too Short-Card"),
   ([0x31, 0x36], "Card move manually"),
   ([0x34, 0x30], "Move card when recycling"),
   ([0x34, 0x31], "Magnent of IC Card Error"),
   ([0x34, 0x33], "Disable To Move Card To IC Card Position"),
   ([0x34, 0x35], "Manually Move Card"),
   ([0x35, 0x30], "Received Card Counter Overflow"),
   ([0x35, 0x31], "Motor error"),
   ([0x36, 0x30], "Short Circuit of IC Card Supply Power"),
   ([0x36, 0x31], "Activiation of Card False"),
   ([0x36, 0x32], "Command Out Of IC Card Support"),
   ([0x36, 0x35], "Disablity of IC Card"),
   ([0x36, 0x36], "Command Out Of IC Current Card Support"),
   ([0x36, 0x37], "IC Card Transmittion Error"),
   ([0x36, 0x38], "IC Card Transmittion Overtime"),
   ([0x36, 0x39], "CPU/SAM Non-Compliance To EMV Standard"),
   ([0x41, 0x30], "Empty-Stacker"),
   ([0x41, 0x31], "Full-Stacker"),
   ([0x42, 0x30], "Not Reset")]

/-- Embeds `CRT571Errors[string(code)]`: assoc lookup with the Go zero
value (empty string) for absent keys. -/
def errMsg (code : List Nat) : String := (crt571Errors.lookup code).getD ""

/-- Result of decoding a raw response buffer. `panicked` marks inputs on
which the Go code performs an out-of-range index or slice operation. -/
inductive DecodeResult where
  | panicked : DecodeResult
  | positive (cardStatus : List Nat) (st0 st1 st2 : String) (data : List Nat) : DecodeResult
  | negative (errCode : List Nat) (errMsg : String) (data : List Nat) : DecodeResult
  | unknown (ty : Nat) : DecodeResult
deriving DecidableEq, Repr

/-- Embeds the response-decoding tail of `request` (part_000 lines
462-486): read the declared length from `buf[2:4]`, dispatch on the
discriminator `buf[4]`; positive branch (PMT 0x50) takes `buf[7:10]` and
`buf[10 : 10+datalen-6]`, negative branch (EMT 0x45 or EMT2 0x4E) takes
`buf[9 : 9+datalen-5]` and `buf[6:8]`; any other discriminator is the
unknown-response return carrying the raw byte. Every Go index or slice
that would panic yields `DecodeResult.panicked`. -/
def decodeResponse (buf : List Nat) : DecodeResult :=
  match goSlice buf 2 4 with
  | none => DecodeResult.panicked
  | some lenB =>
    let datalen := lenB.getD 0 0 * 256 + lenB.getD 1 0
    match buf[4]? with
    | none => DecodeResult.panicked
    | some ty =>
      if ty = 0x50 then
        match goSlice buf 7 10 with
        | none => DecodeResult.panicked
        | some st =>
          match goSlice buf 10 (10 + datalen - 6) with
          | none => DecodeResult.panicked
          | some d =>
            DecodeResult.positive st (st0Msg (buf.getD 7 0)) (st1Msg (buf.getD 8 0))
              (st2Msg (buf.getD 9 0)) d
      else if ty = 0x45 ∨ ty = 0x4E then
        match goSlice buf 9 (9 + datalen - 5) with
        | none => DecodeResult.panicked
        | some d =>
          match goSlice buf 6 8 with
          | none => DecodeResult.panicked
          | some code => DecodeResult.negative code (errMsg code) d
      else DecodeResult.unknown ty

/-- Outcome of one call to `exchange`. `panicked` marks runs on which the
Go code indexes out of range (the `buf[len-1]` read with `len = 0`). -/
inductive ExchangeResult where
  | panicked : ExchangeResult
  | error (msg : String) : ExchangeResult
  | ok (buf : List Nat) : ExchangeResult
deriving DecidableEq, Repr

/-- Observable behaviour of one `exchange` call: its return value, the
byte strings written to the serial port in order, and the outcome of the
checksum verification when it was performed (`bccLog` records only what
the Go code logs; it never influences `result` or `writes`). -/
structure ExchangeOut where
  result : ExchangeResult
  writes : List (List Nat)
  bccLog : Option Bool
deriving DecidableEq, Repr

/-- Reading into the zero-initialised 1024-byte buffer from index 0: the
bytes actually read, followed by the untouched rest of the buffer. -/
def fillBuf (content base : List Nat) : List Nat := content ++ base.drop content.length

/-- The tail of `exchange` once the reply buffer and its byte count are
fixed (part_000 lines 406-422): verify the checksum of `buf[:len]`
(logged only - the rejection branch is commented out in the source),
write the ACK byte back, and return the whole buffer. -/
def exchangeFinish (data buf : List Nat) (len : Nat) : ExchangeOut :=
  if len = 0 then ⟨ExchangeResult.panicked, [data], none⟩
  else
    ⟨ExchangeResult.ok buf, [data, [0x06]],
      some (bccCheck (buf.getD (len - 1) 0) (buf.take (len - 1)))⟩

/-- Embeds `exchange` (part_000 lines 366-423, identical in part_001).
The transport is modelled by the outcomes of the two accumulate-reads:
`firstRead` is what the first `read` loop returns, `secondRead` what a
second one would return. Port writes are assumed to succeed. The read
buffer is 1024 zero bytes overwritten from index 0, so the absent-ACK
test `buf[0] != CRT571_ACK` sees a zero byte when nothing was read. -/
def exchange (data : List Nat) (firstRead secondRead : Except String (List Nat)) :
    ExchangeOut :=
  match firstRead with
  | Except.error e => ⟨ExchangeResult.error e, [data], none⟩
  | Except.ok f =>
    let buf := fillBuf f (List.replicate 1024 0)
    if buf.getD 0 0 = 0x06 then
      if 1 < f.length then exchangeFinish data (buf.drop 1) (f.length - 1)
      else
        match secondRead with
        | Except.error e => ⟨ExchangeResult.error e, [data], none⟩
        | Except.ok s => exchangeFinish data (fillBuf s buf) s.length
    else ⟨ExchangeResult.error "ACK is absent", [data], none⟩

/-- The reply buffer `exchange` hands back on its success path, as a
function of the two read outcomes alone (in particular not of the
checksum comparison): the coalesced remainder of the first read, or the
buffer refilled by the second read. -/
def replyOf (f s : List Nat) : List Nat :=
  let buf := fillBuf f (List.replicate 1024 0)
  if 1 < f.length then buf.drop 1 else fillBuf s buf

/-- Result of the part_001 variant of `request`, which returns a status
slice, a data slice and an error. `panicked` marks runs on which the Go
code would panic on an index or slice operation. -/
inductive Req001Result where
  | panicked : Req001Result
  | ok (status data : List Nat) : Req001Result
  | fail (data : Option (List Nat)) (msg : String) : Req001Result
deriving DecidableEq, Repr

/-- Embeds the decoding tail of the part_001 `request` (lines 325-336):
positive branch logs `buf[7:10]` and `buf[10:10+datalen-6]` and returns
`buf[7:10]` with `buf[10:10+datalen]`; the negative branch (0x45 only in
this variant) logs `buf[6:8]` and `buf[9:9+datalen-5]` and returns
`buf[9:9+datalen]` with the error-code lookup over `buf[6:8]`; other
discriminators produce the unknown-status error (the hex byte that Go
formats into that message is abstracted away here). Slices evaluated
only inside log statements still panic in Go, so they are still
sequenced here. -/
def decode001 (buf : List Nat) : Req001Result :=
  match goSlice buf 2 4 with
  | none => Req001Result.panicked
  | some lenB =>
    let datalen := lenB.getD 0 0 * 256 + lenB.getD 1 0
    match buf[4]? with
    | none => Req001Result.panicked
    | some ty =>
      if ty = 0x50 then
        match goSlice buf 7 10 with
        | none => Req001Result.panicked
        | some st =>
          match goSlice buf 10 (10 + datalen - 6) with
          | none => Req001Result.panicked
          | some _ =>
            match goSlice buf 10 (10 + datalen) with
            | none => Req001Result.panicked
            | some d => Req001Result.ok st d
      else if ty = 0x45 then
        match goSlice buf 6 8 with
        | none => Req001Result.panicked
        | some code =>
          match goSlice buf 9 (9 + datalen - 5) with
          | none => Req001Result.panicked
          | some _ =>
            match goSlice buf 9 (9 + datalen) with
            | none => Req001Result.panicked
            | some d => Req001Result.fail (some d) (errMsg code)
      else Req001Result.fail none "[ERROR] Unknow data response status"

/-- Embeds the part_001 `request` (lines 291-337): encode the frame,
reject oversized frames, run one exchange, then decode the reply. -/
def request001 (addr cm pm : Nat) (data : List Nat)
    (firstRead secondRead : Except String (List Nat)) : Req001Result :=
  match makeRequest addr cm pm data with
  | Except.error e => Req001Result.fail none e
  | Except.ok frame =>
    match (exchange frame firstRead secondRead).result with
    | ExchangeResult.panicked => Req001Result.panicked
    | ExchangeResult.error e => Req001Result.fail none e
    | ExchangeResult.ok buf => decode001 buf

/-- Embeds the part_001 facade `Initialization` (lines 340-345): it calls
`request` with CM 0x30, discards all three return values, and returns
`nil` unconditionally. -/
def Initialization (addr pm : Nat) (firstRead secondRead : Except String (List Nat)) :
    Option String :=
  let _ := request001 addr 0x30 pm [] firstRead secondRead
  none

theorem bccCalc_snoc (a : List Nat) (x : Nat) :
    bccCalc (a ++ [x]) = Nat.xor (bccCalc a) x := by
  simp [bccCalc]

theorem encodeRequest_length (addr cm pm : Nat) (data : List Nat) :
    (encodeRequest addr cm pm data).length = data.length + 9 := by
  simp [encodeRequest, requestBody, putUint16BE]

/-- Claim C1: for address 0x00, command byte 0x31, parameter byte 0x30
and an empty payload, the request encoder produces exactly the nine
bytes F2 00 00 03 43 31 30 03 B0, where B0 is the xor of the preceding
eight bytes (start marker, address, two big-endian length bytes, command
marker, command, parameter, end marker). -/
theorem c1_encode_status_request_frame :
    makeRequest 0x00 0x31 0x30 [] =
      Except.ok [0xF2, 0x00, 0x00, 0x03, 0x43, 0x31, 0x30, 0x03, 0xB0]
    ∧ bccCalc [0xF2, 0x00, 0x00, 0x03, 0x43, 0x31, 0x30, 0x03] = 0xB0 :=
  ⟨rfl, rfl⟩

/-- Claim C2, counterexample: on the concrete frame encoded from an
empty payload, the big-endian length field holds 3, but the bytes from
the command-marker byte (CMT, index 4) through the end-marker byte
inclusive are the four bytes 43 31 30 03, so the length field does not
equal that count. -/
theorem c2_cx_length_field_vs_marker_count :
    (encodeRequest 0x00 0x31 0x30 []).getD 2 0 * 256
        + (encodeRequest 0x00 0x31 0x30 []).getD 3 0 = 3
    ∧ ((encodeRequest 0x00 0x31 0x30 []).take
          ((encodeRequest 0x00 0x31 0x30 []).length - 1)).drop 4
        = [0x43, 0x31, 0x30, 0x03]
    ∧ (3 : Nat) ≠ List.length [0x43, 0x31, 0x30, 0x03] :=
  ⟨rfl, rfl, by decide⟩

/-- Claim C2 as amended: for every payload the encoder accepts (at most
1015 bytes, so the uint16 cast cannot wrap), the two-byte big-endian
length field of the encoded request frame equals len(payload) + 3, which
is the count of bytes from the byte following the command marker (the
command byte, index 5) through the end-marker byte inclusive. -/
theorem c2_amended_length_field (addr cm pm : Nat) (data : List Nat)
    (h : data.length ≤ 1015) :
    (encodeRequest addr cm pm data).getD 2 0 * 256
        + (encodeRequest addr cm pm data).getD 3 0 = data.length + 3
    ∧ (((encodeRequest addr cm pm data).take
          ((encodeRequest addr cm pm data).length - 1)).drop 5).length
        = data.length + 3 := by
  constructor
  · simp [encodeRequest, requestBody, putUint16BE]
    omega
  · simp [List.length_drop, List.length_take, encodeRequest_length]

/-- Witness for C2: the amended statement instantiated at a one-byte
payload, whose length field is 4. -/
theorem c2_amended_length_field_witness :
    (encodeRequest 0x00 0x31 0x30 [0x41]).getD 2 0 * 256
        + (encodeRequest 0x00 0x31 0x30 [0x41]).getD 3 0 = 4
    ∧ (((encodeRequest 0x00 0x31 0x30 [0x41]).take
          ((encodeRequest 0x00 0x31 0x30 [0x41]).length - 1)).drop 5).length = 4 :=
  c2_amended_length_field 0x00 0x31 0x30 [0x41] (by decide)

/-- Claim C3: the checksum computation is the running xor of its input
bytes in transmission order (it starts at 0 and folds xor left to
right), and the encoder appends exactly this value, computed over every
byte from start marker through end marker inclusive, as the final byte
of the request frame. -/
theorem c3_checksum_is_running_xor :
    (∀ addr cm pm data, encodeRequest addr cm pm data
        = requestBody addr cm pm data ++ [bccCalc (requestBody addr cm pm data)])
    ∧ bccCalc [] = 0
    ∧ ∀ a x, bccCalc (a ++ [x]) = Nat.xor (bccCalc a) x :=
  ⟨fun _ _ _ _ => rfl, rfl, bccCalc_snoc⟩

set_option maxRecDepth 10000 in
/-- Claim C4, counterexample: at payload length 1021 the encoder fails
with the frame-too-large error (the encoded frame has 1030 bytes),
refuting the claim that it succeeds at exactly 1021. -/
theorem c4_cx_fails_at_payload_length_1021 :
    makeRequest 0x00 0x31 0x30 (List.replicate 1021 0x30) =
      Except.error "[ERROR] Exceed max packet size for CRT-571" :=
  rfl

/-- Claim C4 as amended: the request encoder fails with the
frame-too-large error exactly when len(payload) > 1015 and succeeds when
len(payload) = 1015; equivalently, it fails if and only if the encoded
byte count, which is len(payload) + 9, exceeds 1024. -/
theorem c4_amended_size_bound (addr cm pm : Nat) (data : List Nat) :
    makeRequest addr cm pm data =
      (if 1015 < data.length then Except.error "[ERROR] Exceed max packet size for CRT-571"
       else Except.ok (encodeRequest addr cm pm data))
    ∧ (encodeRequest addr cm pm data).length = data.length + 9 := by
  constructor
  · simp only [makeRequest, encodeRequest_length]
    exact if_congr (by omega) rfl rfl
  · exact encodeRequest_length addr cm pm data

set_option maxRecDepth 10000 in
/-- Claim C5 fails on the code: the decoder does not length-check its
slice bounds. On the empty buffer the very first slice `buf[2:4]`
panics, and even on a full zero-padded 1024-byte exchange buffer a
declared length field of 0 with a positive discriminator makes
`buf[10 : 10+datalen-6]` (Go bounds 10:4) panic; no truncated-frame
failure value exists anywhere in the code. -/
theorem c5_decode_unchecked_slicing_panics :
    decodeResponse [] = DecodeResult.panicked
    ∧ decodeResponse
        (fillBuf [0xF2, 0x00, 0x00, 0x00, 0x50, 0x30, 0x30, 0x30, 0x30, 0x30, 0x03, 0xA2]
          (List.replicate 1024 0)) = DecodeResult.panicked :=
  ⟨rfl, rfl⟩

theorem fillBuf_getD_zero (f : List Nat) :
    (fillBuf f (List.replicate 1024 0)).getD 0 0 = f.getD 0 0 := by
  cases f with
  | nil => rfl
  | cons a t => rfl

/-- Claim C6: a checksum mismatch on a received reply does not abort the
exchange. Whenever the first read starts with the acknowledge byte and a
nonempty reply is available (coalesced or via the second read), the
exchange returns the reply buffer and writes the acknowledge byte back,
and this holds uniformly for every reply content - in particular also
when the trailing byte differs from the xor of the preceding bytes. The
returned value `replyOf f s` is a function of the two reads alone, so
the result does not depend on checksum validity. -/
theorem c6_exchange_ignores_checksum (data f s : List Nat)
    (hack : f.getD 0 0 = 0x06)
    (hrep : 1 < f.length ∨ s ≠ []) :
    (exchange data (Except.ok f) (Except.ok s)).result = ExchangeResult.ok (replyOf f s)
    ∧ (exchange data (Except.ok f) (Except.ok s)).writes = [data, [0x06]] := by
  have hbuf : (fillBuf f (List.replicate 1024 0)).getD 0 0 = 0x06 := by
    rw [fillBuf_getD_zero]
    exact hack
  by_cases h1 : 1 < f.length
  · have hlen : ¬(f.length - 1 = 0) := by omega
    constructor <;>
      simp only [exchange, exchangeFinish, replyOf, hbuf, h1, hlen, if_true, if_false,
        eq_self_iff_true, ite_true, ite_false, not_true, not_false_iff]
  · rcases hrep with h | hs
    · exact absurd h h1
    · have hlen : ¬(s.length = 0) := by
        simpa [List.length_eq_zero] using hs
      constructor <;>
        simp only [exchange, exchangeFinish, replyOf, hbuf, h1, hlen, if_true, if_false,
          eq_self_iff_true, ite_true, ite_false, not_true, not_false_iff]

/-- Witness for C6: a concrete exchange whose reply `F2 00 FF` has an
invalid checksum (xor of F2 00 is F2, not FF) still returns the reply
buffer and writes the acknowledge byte back. -/
theorem c6_exchange_ignores_checksum_witness :
    (exchange [0xAA] (Except.ok [0x06]) (Except.ok [0xF2, 0x00, 0xFF])).result
        = ExchangeResult.ok (replyOf [0x06] [0xF2, 0x00, 0xFF])
    ∧ (exchange [0xAA] (Except.ok [0x06]) (Except.ok [0xF2, 0x00, 0xFF])).writes
        = [[0xAA], [0x06]] :=
  c6_exchange_ignores_checksum [0xAA] [0x06] [0xF2, 0x00, 0xFF] rfl (Or.inr (by decide))

theorem getD_drop_take (buf : List Nat) :
    ((buf.drop 2).take 2).getD 0 0 = buf.getD 2 0
    ∧ ((buf.drop 2).take 2).getD 1 0 = buf.getD 3 0 := by
  constructor <;>
    · rw [List.getD_eq_getElem?_getD, List.getD_eq_getElem?_getD,
        List.getElem?_take_of_lt (by omega), List.getElem?_drop]

/-- Claim C7: response decoding accepts both the primary negative marker
0x45 and the alternate negative marker 0x4E as the discriminator of a
negative reply: with either discriminator the decoder never takes the
unknown-response branch, and whenever the declared length makes the
negative-reply offsets fit in the buffer it returns the typed failure
whose error code is bytes [6:8] and whose data is bytes
[9 : 9 + datalen - 5]. -/
theorem c7_decode_accepts_both_negative_markers (buf : List Nat) (ty : Nat)
    (h4 : buf[4]? = some ty) (hty : ty = 0x45 ∨ ty = 0x4E) :
    (∀ b, decodeResponse buf ≠ DecodeResult.unknown b)
    ∧ (∀ dl, dl = buf.getD 2 0 * 256 + buf.getD 3 0 → 5 ≤ dl → dl + 4 ≤ buf.length →
        decodeResponse buf =
          DecodeResult.negative ((buf.drop 6).take 2) (errMsg ((buf.drop 6).take 2))
            ((buf.drop 9).take (dl - 5))) := by
  obtain ⟨hlt, -⟩ := List.getElem?_eq_some_iff.mp h4
  have hg : goSlice buf 2 4 = some ((buf.drop 2).take 2) := by
    unfold goSlice
    rw [if_pos ⟨by omega, by omega⟩]
  have hty50 : ¬(ty = 0x50) := by
    rcases hty with h | h <;> subst h <;> decide
  constructor
  · intro b
    simp only [decodeResponse, hg, h4]
    rw [if_neg hty50, if_pos hty]
    split
    · simp
    · split
      · simp
      · simp
  · intro dl hdl h5 hlen
    obtain ⟨hl2, hl3⟩ := getD_drop_take buf
    have hdl2 : ((buf.drop 2).take 2).getD 0 0 * 256 + ((buf.drop 2).take 2).getD 1 0 = dl := by
      rw [hl2, hl3, hdl]
    have hg9 : goSlice buf 9
        (9 + (((buf.drop 2).take 2).getD 0 0 * 256 + ((buf.drop 2).take 2).getD 1 0) - 5)
        = some ((buf.drop 9).take (dl - 5)) := by
      rw [hdl2]
      unfold goSlice
      rw [if_pos ⟨by omega, by omega⟩]
      rw [show 9 + dl - 5 - 9 = dl - 5 from by omega]
    have hg6 : goSlice buf 6 8 = some ((buf.drop 6).take 2) := by
      unfold goSlice
      rw [if_pos ⟨by omega, by omega⟩]
    simp only [decodeResponse, hg, h4]
    rw [if_neg hty50, if_pos hty]
    simp only [hg9, hg6]

/-- Witness for C7: a ten-byte negative reply with discriminator 0x45,
declared length 5 and error code bytes "10" decodes to the typed failure
with that code. -/
theorem c7_decode_accepts_both_negative_markers_witness :
    decodeResponse [0xF2, 0x00, 0x00, 0x05, 0x45, 0x31, 0x31, 0x30, 0x30, 0x03]
      = DecodeResult.negative [0x31, 0x30]
          (errMsg [0x31, 0x30]) [] :=
  (c7_decode_accepts_both_negative_markers
      [0xF2, 0x00, 0x00, 0x05, 0x45, 0x31, 0x31, 0x30, 0x30, 0x03] 0x45 rfl
      (Or.inl rfl)).2 5 rfl (by decide) (by decide)

/-- Claim C8: for every response buffer of length at least five whose
discriminator byte (index 4) is neither the positive marker 0x50 nor a
negative marker 0x45 / 0x4E, decoding returns the unknown-response
failure carrying the raw discriminator byte, and neither panics nor
returns a success or negative result. -/
theorem c8_decode_unknown_discriminator (buf : List Nat) (ty : Nat)
    (h4 : buf[4]? = some ty)
    (hne : ty ≠ 0x50 ∧ ty ≠ 0x45 ∧ ty ≠ 0x4E) :
    decodeResponse buf = DecodeResult.unknown ty := by
  obtain ⟨hlt, -⟩ := List.getElem?_eq_some_iff.mp h4
  have hg : goSlice buf 2 4 = some ((buf.drop 2).take 2) := by
    unfold goSlice
    rw [if_pos ⟨by omega, by omega⟩]
  simp [decodeResponse, hg, h4, hne.1, hne.2.1, hne.2.2]

/-- Witness for C8: a five-byte buffer whose discriminator is 0x41
decodes to the unknown-response failure carrying 0x41. -/
theorem c8_decode_unknown_discriminator_witness :
    decodeResponse [0xF2, 0x00, 0x00, 0x03, 0x41] = DecodeResult.unknown 0x41 :=
  c8_decode_unknown_discriminator [0xF2, 0x00, 0x00, 0x03, 0x41] 0x41 rfl (by decide)

/-- Claim C9 fails on the code: the part_001 facade Initialization
discards the outcome of the underlying request and returns nil
unconditionally. Shown on an exchange whose first read byte is the NAK
byte 0x15: the underlying request fails with the ACK-absent error, yet
Initialization reports success. -/
theorem c9_initialization_swallows_request_error :
    request001 0x00 0x30 0x30 [] (Except.ok [0x15]) (Except.ok []) =
      Req001Result.fail none "ACK is absent"
    ∧ Initialization 0x00 0x30 (Except.ok [0x15]) (Except.ok []) = none :=
  ⟨rfl, rfl⟩

/-- Claim C10: appending the checksum of a byte sequence to the sequence
and recomputing yields zero. -/
theorem c10_checksum_self_inverse (B : List Nat) :
    bccCalc (B ++ [bccCalc B]) = 0 := by
  rw [bccCalc_snoc]
  exact Nat.xor_self _

end Crt571
